import Mathlib

/-!
Verification of the O-bok-wan trading-journal core (src/app.py).

Shallow embedding conventions:
* prices and percentages are modelled as exact rationals (ℚ);
* calendar dates are epoch days (ℤ); Unix timestamps are seconds (ℤ);
* the two network fetches of `get_market_context` appear as `Except Unit`
  parameters: `Except.error ()` stands for any exception raised while
  fetching or parsing that feed (network failure, malformed response);
* the CSV backing store is a `FileState`: missing, present-but-unparseable
  (pd.read_csv raises), or present with a parsed list of records.
-/

namespace OBokWan

/-- Position side; the form's selectbox offers exactly ["Long", "Short"],
and the source tests membership of the substring "Long". -/
inductive Position where
  | Long
  | Short
deriving DecidableEq, Repr

/-- app.py lines 102-106: the leveraged percentage profit/loss.
Long: ((exit_price - entry_price) / entry_price) * leverage * 100;
Short: ((entry_price - exit_price) / entry_price) * leverage * 100. -/
def pnl_rate (position : Position) (entry_price exit_price leverage : ℚ) : ℚ :=
  match position with
  | Position.Long => ((exit_price - entry_price) / entry_price) * leverage * 100
  | Position.Short => ((entry_price - exit_price) / entry_price) * leverage * 100

/-- app.py lines 104 and 107 (identical in both branches):
pnl_status = "Win" if pnl_rate > 0 else "Lose". -/
def pnl_status (rate : ℚ) : String :=
  if rate > 0 then "Win" else "Lose"

/-- app.py line 109: risk = abs(entry_price - stop_loss) if stop_loss > 0 else 0. -/
def risk (entry_price stop_loss : ℚ) : ℚ :=
  if stop_loss > 0 then |entry_price - stop_loss| else 0

/-- app.py line 110: reward = abs(take_profit - entry_price) if take_profit > 0 else 0. -/
def reward (take_profit entry_price : ℚ) : ℚ :=
  if take_profit > 0 then |take_profit - entry_price| else 0

/-- app.py line 111: rr_ratio = reward / risk if risk > 0 else 0. -/
def rr_ratio (risk reward : ℚ) : ℚ :=
  if risk > 0 then reward / risk else 0

/-- Python's round() to the nearest integer, ties to even (banker's rounding),
on an exact rational value. -/
def pyRound (q : ℚ) : ℤ :=
  let f := ⌊q⌋
  if q - f < 1/2 then f
  else if (1:ℚ)/2 < q - f then f + 1
  else if f % 2 = 0 then f else f + 1

/-- Python's round(x, 2) on an exact rational value. -/
def round2 (q : ℚ) : ℚ := (pyRound (q * 100) : ℚ) / 100

/-- One item of the fear/greed feed's `data` list, with `timestamp` (Unix
seconds) and `value` already parsed to integers; a fetch whose body cannot be
parsed is modelled as `Except.error ()` on the whole list. -/
structure FngItem where
  timestamp : ℤ
  value : ℤ
  value_classification : String
deriving DecidableEq, Repr

/-- datetime.fromtimestamp(int(item['timestamp'])).date(): the day-granularity
date (epoch day) of a Unix-seconds timestamp. -/
def tsDate (ts : ℤ) : ℤ := ts.fdiv 86400

/-- One daily OHLC candle; only the open and close columns are read. -/
structure Candle where
  openPrice : ℚ
  closePrice : ℚ
deriving DecidableEq, Repr

/-- app.py lines 24-29: the for-loop with break, which selects the first item
whose day-granularity date equals target_date. -/
def findFng (fng_data : List FngItem) (target_date : ℤ) : Option FngItem :=
  fng_data.find? (fun item => tsDate item.timestamp == target_date)

/-- app.py lines 21-33: the fear/greed value and classification chosen for
target_date: the first date-matching item, else the feed's first list entry;
`none` models the IndexError raised by fng_data[0] on an empty list. -/
def sentimentFor (fng_data : List FngItem) (target_date : ℤ) : Option (ℤ × String) :=
  match findFng fng_data target_date with
  | some item => some (item.value, item.value_classification)
  | none =>
    match fng_data with
    | [] => none
    | first :: _ => some (first.value, first.value_classification)

/-- app.py lines 37-45: btc_trend = "-" if the candle frame is empty, else
"양봉(상승)" ("bullish candle") when the first row's close exceeds its open and
"음봉(하락)" ("bearish candle") otherwise. -/
def btc_trend (btc : List Candle) : String :=
  match btc with
  | [] => "-"
  | c :: _ => if c.closePrice > c.openPrice then "양봉(상승)" else "음봉(하락)"

/-- app.py lines 15-50: get_market_context. `fngFetch` is the outcome of the
requests.get + JSON parse of the sentiment feed; `btcDownload start end` is the
outcome of yf.download over [start, end); the source calls it with
start = target_date and end = target_date + 2 days. Any `Except.error` (an
exception) lands in the blanket `except` returning (0, "-", "데이터 없음")
("no data"). -/
def get_market_context
    (fngFetch : Except Unit (List FngItem))
    (btcDownload : ℤ → ℤ → Except Unit (List Candle))
    (target_date : ℤ) : ℤ × String × String :=
  match fngFetch with
  | Except.error _ => (0, "-", "데이터 없음")
  | Except.ok fng_data =>
    match sentimentFor fng_data target_date with
    | none => (0, "-", "데이터 없음")
    | some vt =>
      match btcDownload target_date (target_date + 2) with
      | Except.error _ => (0, "-", "데이터 없음")
      | Except.ok btc => (vt.1, vt.2, btc_trend btc)

/-- One persisted row of oh_bok_wan_data.csv (app.py lines 117-128); field
names translate the Korean column labels: entryDT 진입일시 (date, time),
ticker 종목, position 포지션, leverage 레버리지, pnlPercent 수익률(%),
result 결과, riskReward 손익비, fngValue 공포지수, fngText 시장심리,
btcTrend 비트추세. -/
structure TradeRecord where
  entryDT : ℤ × ℚ
  ticker : String
  position : Position
  leverage : ℕ
  pnlPercent : ℚ
  result : String
  riskReward : ℚ
  fngValue : ℤ
  fngText : String
  btcTrend : String
deriving DecidableEq, Repr

/-- The backing CSV file: absent, present but unparseable (pd.read_csv
raises), or present with parsed rows. -/
inductive FileState where
  | missing
  | present (content : Except Unit (List TradeRecord))
deriving Repr

/-- app.py lines 53-62: load_data returns the parsed rows, or an empty frame
when the file does not exist or read_csv raises. -/
def load_data : FileState → List TradeRecord
  | FileState.missing => []
  | FileState.present (Except.error _) => []
  | FileState.present (Except.ok rows) => rows

/-- app.py lines 64-71: save_data loads the current history, appends the new
row (new_df alone when the history is empty), and rewrites the whole file. -/
def save_data (fs : FileState) (data : TradeRecord) : FileState :=
  let df := load_data fs
  let final_df := if df.isEmpty then [data] else df ++ [data]
  FileState.present (Except.ok final_df)

/-- The validated form inputs of tab 1 (app.py lines 82-95): leverage is an
integer ≥ 1 by the widget's min_value; time is the clock time within the day. -/
structure FormInput where
  ticker : String
  date : ℤ
  time : ℚ
  position : Position
  leverage : ℕ
  entry_price : ℚ
  exit_price : ℚ
  stop_loss : ℚ
  take_profit : ℚ
deriving DecidableEq, Repr

/-- app.py lines 99-129: the submit handler. When both prices are positive it
computes the metrics, asks get_market_context for enrichment, assembles
trade_data (percentages rounded to 2 decimals) and saves it; otherwise it
only reports a validation error. Returns the new file state and the record
saved, if any. -/
def submit (fngFetch : Except Unit (List FngItem))
    (btcDownload : ℤ → ℤ → Except Unit (List Candle))
    (inp : FormInput) (fs : FileState) : FileState × Option TradeRecord :=
  if inp.entry_price > 0 ∧ inp.exit_price > 0 then
    let rate := pnl_rate inp.position inp.entry_price inp.exit_price inp.leverage
    let status := pnl_status rate
    let r := risk inp.entry_price inp.stop_loss
    let w := reward inp.take_profit inp.entry_price
    let rr := rr_ratio r w
    let ctx := get_market_context fngFetch btcDownload inp.date
    let trade_data : TradeRecord :=
      { entryDT := (inp.date, inp.time)
        ticker := inp.ticker
        position := inp.position
        leverage := inp.leverage
        pnlPercent := round2 rate
        result := status
        riskReward := round2 rr
        fngValue := ctx.1
        fngText := ctx.2.1
        btcTrend := ctx.2.2 }
    (save_data fs trade_data, some trade_data)
  else
    (fs, none)

/-- Modelled from the spec: the @st.cache_data(ttl=3600) decorator on
get_market_context (app.py line 14) is library code not present in this
repository; per the spec's design note it is an explicit map from the date
key to (value, creationTimestamp), whose lookup reuses an entry only while
now - creationTimestamp < ttl, and otherwise recomputes, stores the fresh
entry, and counts one more invocation of the underlying network layer. -/
def cacheTTL : ℤ := 3600

/-- Modelled from the spec: one cache entry — the cached tuple and the
moment (seconds) of its computation. -/
structure CacheEntry where
  value : ℤ × String × String
  createdAt : ℤ
deriving DecidableEq, Repr

/-- Modelled from the spec: the cache map (keyed by target date) together
with the running count of network-layer invocations. -/
structure CacheState where
  entries : List (ℤ × CacheEntry)
  networkCalls : ℕ
deriving DecidableEq, Repr

/-- Modelled from the spec: the cached call. A fresh-enough entry is returned
as-is without touching the network; otherwise the underlying computation runs
once, its result is stored keyed by the date with the current time, and the
network-call counter advances. -/
def cacheLookup (compute : ℤ → ℤ × String × String) (st : CacheState) (now : ℤ)
    (key : ℤ) : (ℤ × String × String) × CacheState :=
  match st.entries.find? (fun p => p.1 == key) with
  | some p =>
    if now - p.2.createdAt < cacheTTL then (p.2.value, st)
    else
      let v := compute key
      (v, ⟨(key, ⟨v, now⟩) :: st.entries.filter (fun q => q.1 ≠ key), st.networkCalls + 1⟩)
  | none =>
    let v := compute key
    (v, ⟨(key, ⟨v, now⟩) :: st.entries.filter (fun q => q.1 ≠ key), st.networkCalls + 1⟩)

/-- Helper: one save_data appends exactly one row to what load_data returns. -/
theorem load_data_save_data (fs : FileState) (r : TradeRecord) :
    load_data (save_data fs r) = load_data fs ++ [r] := by
  cases fs with
  | missing => rfl
  | present content =>
    cases content with
    | error e => rfl
    | ok rows => cases rows <;> simp [load_data, save_data]

/-- Helper: the Win/Lose classification as a function of the raw rate. -/
theorem pnl_status_spec (r : ℚ) :
    (pnl_status r = "Win" ↔ 0 < r) ∧ (r = 0 → pnl_status r = "Lose") := by
  unfold pnl_status
  split
  · rename_i h
    exact ⟨⟨fun _ => h, fun _ => rfl⟩, fun h0 => absurd h (by rw [h0]; exact lt_irrefl 0)⟩
  · rename_i h
    exact ⟨⟨fun hw => absurd hw (by decide), fun hpos => absurd hpos h⟩, fun _ => rfl⟩

/-- C1: for every entryPrice > 0, exitPrice > 0 and leverage, pnl_rate is
(exit - entry) / entry * leverage * 100 for Long and
(entry - exit) / entry * leverage * 100 for Short. -/
theorem C1_pnl_formula (entry_price exit_price leverage : ℚ)
    (hentry : 0 < entry_price) (hexit : 0 < exit_price) :
    pnl_rate Position.Long entry_price exit_price leverage
      = (exit_price - entry_price) / entry_price * leverage * 100 ∧
    pnl_rate Position.Short entry_price exit_price leverage
      = (entry_price - exit_price) / entry_price * leverage * 100 :=
  ⟨rfl, rfl⟩

/-- C1 witness: the formulas at entry=100, exit=110, leverage=2. -/
theorem C1_pnl_formula_witness :
    pnl_rate Position.Long 100 110 2 = (110 - 100) / 100 * 2 * 100 ∧
    pnl_rate Position.Short 100 110 2 = (100 - 110) / 100 * 2 * 100 :=
  C1_pnl_formula 100 110 2 (by norm_num) (by norm_num)

/-- C2: for every valid input (entry, exit > 0) and both positions, the
classification is "Win" iff the raw rate is strictly positive, and a zero
rate yields "Lose". -/
theorem C2_win_iff_positive (position : Position) (entry_price exit_price leverage : ℚ)
    (hentry : 0 < entry_price) (hexit : 0 < exit_price) :
    (pnl_status (pnl_rate position entry_price exit_price leverage) = "Win"
      ↔ 0 < pnl_rate position entry_price exit_price leverage) ∧
    (pnl_rate position entry_price exit_price leverage = 0 →
      pnl_status (pnl_rate position entry_price exit_price leverage) = "Lose") :=
  pnl_status_spec _

/-- C2 witness: at entry = exit = 100 (Long, leverage 1) the rate is 0 and the
result is "Lose"; the "Win" case never holds there. -/
theorem C2_win_iff_positive_witness :
    (pnl_status (pnl_rate Position.Long 100 100 1) = "Win"
      ↔ 0 < pnl_rate Position.Long 100 100 1) ∧
    (pnl_rate Position.Long 100 100 1 = 0 →
      pnl_status (pnl_rate Position.Long 100 100 1) = "Lose") :=
  C2_win_iff_positive Position.Long 100 100 1 (by norm_num) (by norm_num)

/-- C3: risk = |entry - stop| when stop > 0 else 0, reward = |tp - entry| when
tp > 0 else 0, riskRewardRatio = reward / risk when risk > 0 else 0, and a
zero stop-loss forces riskRewardRatio = 0 regardless of take-profit. -/
theorem C3_risk_reward (entry_price stop_loss take_profit : ℚ) :
    risk entry_price stop_loss
      = (if 0 < stop_loss then |entry_price - stop_loss| else 0) ∧
    reward take_profit entry_price
      = (if 0 < take_profit then |take_profit - entry_price| else 0) ∧
    rr_ratio (risk entry_price stop_loss) (reward take_profit entry_price)
      = (if 0 < risk entry_price stop_loss
          then reward take_profit entry_price / risk entry_price stop_loss else 0) ∧
    (stop_loss = 0 →
      rr_ratio (risk entry_price stop_loss) (reward take_profit entry_price) = 0) := by
  refine ⟨rfl, rfl, rfl, fun h => ?_⟩
  subst h
  simp [risk, rr_ratio]

/-- C3 witness: the spec's own example (entry=100, stop=105, tp=80 gives
risk 5, reward 20, ratio 4) and the zero-stop case (entry=100, stop=0). -/
theorem C3_risk_reward_witness :
    rr_ratio (risk 100 0) (reward 80 100) = 0 ∧
    risk 100 105 = 5 ∧ reward 80 100 = 20 ∧ rr_ratio (risk 100 105) (reward 80 100) = 4 :=
  ⟨(C3_risk_reward 100 0 80).2.2.2 rfl, by norm_num [risk], by norm_num [reward],
    by norm_num [risk, reward, rr_ratio]⟩

/-- C4: any exception during enrichment — a failed sentiment fetch/parse, an
empty sentiment series (the fng_data[0] IndexError), or a failed price
fetch — makes get_market_context return exactly (0, "-", "데이터 없음")
("no data"), regardless of the other feed, and a submission with positive
prices still persists a record carrying exactly those defaulted fields. -/
theorem C4_enrichment_fallback_persists
    (fngFetch : Except Unit (List FngItem))
    (btcDownload : ℤ → ℤ → Except Unit (List Candle))
    (inp : FormInput) (fs : FileState)
    (hfail : fngFetch = Except.error () ∨ fngFetch = Except.ok [] ∨
      btcDownload inp.date (inp.date + 2) = Except.error ())
    (hentry : 0 < inp.entry_price) (hexit : 0 < inp.exit_price) :
    get_market_context fngFetch btcDownload inp.date = (0, "-", "데이터 없음") ∧
    ∃ r : TradeRecord,
      (submit fngFetch btcDownload inp fs).2 = some r ∧
      r.fngValue = 0 ∧ r.fngText = "-" ∧ r.btcTrend = "데이터 없음" ∧
      load_data (submit fngFetch btcDownload inp fs).1 = load_data fs ++ [r] := by
  have hctx : get_market_context fngFetch btcDownload inp.date = (0, "-", "데이터 없음") := by
    rcases hfail with h | h | h
    · rw [h]; rfl
    · rw [h]; rfl
    · cases fngFetch with
      | error e => rfl
      | ok fng_data =>
        cases hs : sentimentFor fng_data inp.date with
        | none => simp [get_market_context, hs]
        | some vt => simp [get_market_context, hs, h]
  refine ⟨hctx, ?_⟩
  unfold submit
  rw [if_pos ⟨hentry, hexit⟩]
  exact ⟨_, rfl, by simp [hctx], by simp [hctx], by simp [hctx],
    load_data_save_data fs _⟩

/-- C4 witness: both feeds failing on a Long trade at entry 100, exit 110
against a missing store. -/
theorem C4_enrichment_fallback_persists_witness :
    get_market_context (Except.error ()) (fun _ _ => Except.error ())
      (FormInput.mk "BTC/USDT" 0 0 Position.Long 1 100 110 0 0).date
      = (0, "-", "데이터 없음") ∧
    ∃ r : TradeRecord,
      (submit (Except.error ()) (fun _ _ => Except.error ())
        (FormInput.mk "BTC/USDT" 0 0 Position.Long 1 100 110 0 0) FileState.missing).2
        = some r ∧
      r.fngValue = 0 ∧ r.fngText = "-" ∧ r.btcTrend = "데이터 없음" ∧
      load_data (submit (Except.error ()) (fun _ _ => Except.error ())
          (FormInput.mk "BTC/USDT" 0 0 Position.Long 1 100 110 0 0) FileState.missing).1
        = load_data FileState.missing ++ [r] :=
  C4_enrichment_fallback_persists (Except.error ()) (fun _ _ => Except.error ())
    (FormInput.mk "BTC/USDT" 0 0 Position.Long 1 100 110 0 0) FileState.missing
    (Or.inl rfl) (by norm_num) (by norm_num)

/-- C5: with the price fetch succeeding, a sentiment entry whose
day-granularity date equals the target date supplies the value and label (the
loop picks the first such entry), and with no matching entry in a nonempty
series the feed's first list entry supplies them; in both cases the request
succeeds. -/
theorem C5_sentiment_match_or_first
    (fng_data : List FngItem) (btcDownload : ℤ → ℤ → Except Unit (List Candle))
    (target_date : ℤ) (candles : List Candle)
    (hbtc : btcDownload target_date (target_date + 2) = Except.ok candles) :
    (∀ item, findFng fng_data target_date = some item →
      get_market_context (Except.ok fng_data) btcDownload target_date
        = (item.value, item.value_classification, btc_trend candles)) ∧
    (∀ first rest, findFng fng_data target_date = none → fng_data = first :: rest →
      get_market_context (Except.ok fng_data) btcDownload target_date
        = (first.value, first.value_classification, btc_trend candles)) := by
  constructor
  · intro item hit
    simp [get_market_context, sentimentFor, hit, hbtc]
  · intro first rest hmiss hcons
    subst hcons
    simp [get_market_context, sentimentFor, hmiss, hbtc]

/-- C5 witness: a two-item feed where the second item's timestamp falls on
epoch day 3; looking up day 3 returns that item's value 55 and label. -/
theorem C5_sentiment_match_or_first_witness :
    get_market_context
        (Except.ok ([⟨86400 * 9, 40, "Fear"⟩, ⟨86400 * 3 + 100, 55, "Greed"⟩] : List FngItem))
        (fun _ _ => Except.ok ([⟨10, 12⟩] : List Candle)) 3
      = (55, "Greed", btc_trend ([⟨10, 12⟩] : List Candle)) :=
  (C5_sentiment_match_or_first
      ([⟨86400 * 9, 40, "Fear"⟩, ⟨86400 * 3 + 100, 55, "Greed"⟩] : List FngItem)
      (fun _ _ => Except.ok ([⟨10, 12⟩] : List Candle)) 3
      ([⟨10, 12⟩] : List Candle) rfl).1
    ⟨86400 * 3 + 100, 55, "Greed"⟩ (by decide)

/-- C6: once the sentiment stage resolves and the candle fetch over
[target_date, target_date + 2) succeeds, the trend component is "-" for an
empty frame, and otherwise "양봉(상승)" ("bullish candle") exactly when the
first row's close strictly exceeds its open, "음봉(하락)" ("bearish candle")
otherwise — equality of close and open counts as bearish. -/
theorem C6_candle_trend
    (fng_data : List FngItem) (btcDownload : ℤ → ℤ → Except Unit (List Candle))
    (target_date : ℤ) (vt : ℤ × String) (candles : List Candle)
    (hs : sentimentFor fng_data target_date = some vt)
    (hbtc : btcDownload target_date (target_date + 2) = Except.ok candles) :
    (get_market_context (Except.ok fng_data) btcDownload target_date).2.2
      = match candles with
        | [] => "-"
        | c :: _ => if c.closePrice > c.openPrice then "양봉(상승)" else "음봉(하락)" := by
  simp only [get_market_context, hs, hbtc]
  cases candles <;> rfl

/-- C6 witness: an empty candle frame on epoch day 0 yields trend "-". -/
theorem C6_candle_trend_witness :
    (get_market_context (Except.ok ([⟨0, 20, "Extreme Fear"⟩] : List FngItem))
        (fun _ _ => Except.ok ([] : List Candle)) 0).2.2 = "-" :=
  C6_candle_trend ([⟨0, 20, "Extreme Fear"⟩] : List FngItem)
    (fun _ _ => Except.ok ([] : List Candle)) 0 (20, "Extreme Fear") []
    (by decide) rfl

/-- C7: load_data returns the empty history when the backing file is missing,
and equally when the file exists but parsing raises; being a total function it
surfaces no exception to its caller. -/
theorem C7_load_failures :
    load_data FileState.missing = [] ∧
    load_data (FileState.present (Except.error ())) = [] :=
  ⟨rfl, rfl⟩

/-- C8: folding save_data over a list of new records makes a subsequent
load_data return exactly the prior records followed by the new ones, in
append order and field-for-field unchanged — in particular starting from a
missing or empty store. -/
theorem C8_append_then_load (fs : FileState) (records : List TradeRecord) :
    load_data (records.foldl save_data fs) = load_data fs ++ records := by
  induction records generalizing fs with
  | nil => simp
  | cons r rs ih =>
    rw [List.foldl_cons, ih, load_data_save_data, List.append_assoc]
    rfl

/-- C9: after a first call on a date absent from the cache at time t0, every
repeated call for the same date at any time t with t - t0 < 3600 returns the
identical tuple and leaves the cache state — hence the network-call
count — unchanged; the first call itself invoked the network layer once and
returned the computed tuple. -/
theorem C9_cache_ttl (compute : ℤ → ℤ × String × String) (st : CacheState)
    (key t0 t : ℤ)
    (hmiss : st.entries.find? (fun p => p.1 == key) = none)
    (hwin : t - t0 < cacheTTL) :
    cacheLookup compute (cacheLookup compute st t0 key).2 t key
      = ((cacheLookup compute st t0 key).1, (cacheLookup compute st t0 key).2) ∧
    (cacheLookup compute st t0 key).1 = compute key ∧
    (cacheLookup compute st t0 key).2.networkCalls = st.networkCalls + 1 := by
  have h1 : cacheLookup compute st t0 key
      = (compute key,
        ⟨(key, ⟨compute key, t0⟩) :: st.entries.filter (fun q => q.1 ≠ key),
          st.networkCalls + 1⟩) := by
    unfold cacheLookup
    rw [hmiss]
  rw [h1]
  refine ⟨?_, rfl, rfl⟩
  unfold cacheLookup
  simp [List.find?, hwin]

/-- C9 witness: an empty cache, first call at time 0, repeat at time 10. -/
theorem C9_cache_ttl_witness :
    cacheLookup (fun _ => (1, "a", "b"))
        (cacheLookup (fun _ => (1, "a", "b")) ⟨[], 0⟩ 0 0).2 10 0
      = ((cacheLookup (fun _ => (1, "a", "b")) ⟨[], 0⟩ 0 0).1,
        (cacheLookup (fun _ => (1, "a", "b")) ⟨[], 0⟩ 0 0).2) ∧
    (cacheLookup (fun _ => (1, "a", "b")) ⟨[], 0⟩ 0 0).1 = (1, "a", "b") ∧
    (cacheLookup (fun _ => (1, "a", "b")) ⟨[], 0⟩ 0 0).2.networkCalls = 0 + 1 :=
  C9_cache_ttl (fun _ => (1, "a", "b")) ⟨[], 0⟩ 0 0 10 rfl (by decide)

/-- C10: the persisted record's result field is computed from the unrounded
rate while its pnlPercent field is the rate rounded to 2 decimals; hence the
Long trade entry=100000, exit=100001, leverage=1 is persisted with
result = "Win" and pnlPercent = 0. -/
theorem C10_result_unrounded_pnl_rounded :
    (∀ (fngFetch : Except Unit (List FngItem))
        (btcDownload : ℤ → ℤ → Except Unit (List Candle))
        (inp : FormInput) (fs : FileState),
      0 < inp.entry_price → 0 < inp.exit_price →
      ∃ r, (submit fngFetch btcDownload inp fs).2 = some r ∧
        r.result
          = pnl_status (pnl_rate inp.position inp.entry_price inp.exit_price inp.leverage) ∧
        r.pnlPercent
          = round2 (pnl_rate inp.position inp.entry_price inp.exit_price inp.leverage)) ∧
    (∃ r, (submit (Except.error ()) (fun _ _ => Except.error ())
          (FormInput.mk "BTC/USDT" 0 0 Position.Long 1 100000 100001 0 0)
          FileState.missing).2 = some r ∧
      r.result = "Win" ∧ r.pnlPercent = 0) := by
  have main : ∀ (fngFetch : Except Unit (List FngItem))
      (btcDownload : ℤ → ℤ → Except Unit (List Candle))
      (inp : FormInput) (fs : FileState),
      0 < inp.entry_price → 0 < inp.exit_price →
      ∃ r, (submit fngFetch btcDownload inp fs).2 = some r ∧
        r.result
          = pnl_status (pnl_rate inp.position inp.entry_price inp.exit_price inp.leverage) ∧
        r.pnlPercent
          = round2 (pnl_rate inp.position inp.entry_price inp.exit_price inp.leverage) := by
    intro fngFetch btcDownload inp fs hentry hexit
    unfold submit
    rw [if_pos ⟨hentry, hexit⟩]
    exact ⟨_, rfl, rfl, rfl⟩
  refine ⟨main, ?_⟩
  obtain ⟨r, hr, hres, hpnl⟩ := main (Except.error ()) (fun _ _ => Except.error ())
    (FormInput.mk "BTC/USDT" 0 0 Position.Long 1 100000 100001 0 0)
    FileState.missing (by norm_num) (by norm_num)
  have hrate : pnl_rate Position.Long 100000 100001 ((1 : ℕ) : ℚ) = 1 / 1000 := by
    norm_num [pnl_rate]
  refine ⟨r, hr, ?_, ?_⟩
  · rw [hres]
    show pnl_status (pnl_rate Position.Long 100000 100001 ((1 : ℕ) : ℚ)) = "Win"
    rw [hrate]
    norm_num [pnl_status]
  · rw [hpnl]
    show round2 (pnl_rate Position.Long 100000 100001 ((1 : ℕ) : ℚ)) = 0
    rw [hrate]
    have hfloor : (⌊(1 : ℚ) / 1000 * 100⌋ : ℤ) = 0 := by norm_num
    norm_num [round2, pyRound, hfloor]

/-- C10 witness: the general part applied to the same concrete Long trade
entry=100000, exit=100001, leverage=1 with both enrichment feeds failing. -/
theorem C10_result_unrounded_pnl_rounded_witness :
    ∃ r, (submit (Except.error ()) (fun _ _ => Except.error ())
        (FormInput.mk "BTC/USDT" 0 0 Position.Long 1 100000 100001 0 0)
        FileState.missing).2 = some r ∧
      r.result = pnl_status (pnl_rate Position.Long 100000 100001 1) ∧
      r.pnlPercent = round2 (pnl_rate Position.Long 100000 100001 1) :=
  C10_result_unrounded_pnl_rounded.1 (Except.error ()) (fun _ _ => Except.error ())
    (FormInput.mk "BTC/USDT" 0 0 Position.Long 1 100000 100001 0 0)
    FileState.missing (by norm_num) (by norm_num)

end OBokWan
